import Mathlib

/-!
Verification of the travel-expense workflow repository.

The definitions below are a shallow embedding of the Python sources:

* src/tools/checks.py        (check_total, _extract_dates, _length_in_days,
                              compare_time_periods_with_llm, calculate_allowance)
* src/tools/backend_tools.py (check_ticket_exists, update_ticket_status)
* src/agents/graph_workflow.py (the LangGraph node functions, state schema and graph)
* src/main.py                (the older check_total variant)

Modelling conventions:

* Python floats are modelled as rationals.  All claims under scrutiny involve
  a fixed tolerance (0.01) that dwarfs double rounding error on the concrete
  examples, so exact rational arithmetic is faithful at every input used here.
* The regular expression for ISO dates is modelled as a left-to-right scan
  for the fixed-width digit pattern; the Python regex class matching any
  decimal digit is modelled as the ASCII digits, which are the only digits
  the subsequent date parser accepts.
* datetime.date is modelled by its (year, month, day) components together
  with the proleptic-Gregorian ordinal used by CPython for date subtraction;
  date comparison is componentwise lexicographic, as in CPython.
* LLM calls and HTTP transport are external collaborators.  They are
  modelled as oracle functions bundled in an Env structure; error handling
  that the Python code performs around them (degrading to empty or negative
  results) is folded into the oracle outcome, matching the code paths that
  never raise.
* Python exceptions that the embedded code itself can raise (attribute or
  type errors from using a value at the wrong type) are modelled with Except.
-/

/-! ### datetime.date model (CPython proleptic Gregorian calendar) -/

/-- CPython datetime._is_leap: year divisible by 4 and (not by 100, or by 400). -/
def isLeap (y : Nat) : Bool :=
  decide (y % 4 = 0 ∧ (y % 100 ≠ 0 ∨ y % 400 = 0))

/-- Days in a month, parameterised by the leap flag (CPython _DAYS_IN_MONTH). -/
def monthLenB (leap : Bool) (m : Nat) : Nat :=
  if m = 2 then (if leap then 29 else 28)
  else if m = 4 ∨ m = 6 ∨ m = 9 ∨ m = 11 then 30
  else 31

def monthLen (y m : Nat) : Nat := monthLenB (isLeap y) m

/-- CPython _DAYS_BEFORE_MONTH table (index 0 is an unused sentinel; months
are 1-based) plus the leap correction for months after February. -/
def daysBeforeMonthB (leap : Bool) (m : Nat) : Nat :=
  [0, 0, 31, 59, 90, 120, 151, 181, 212, 243, 273, 304, 334].getD m 0 +
    (if 2 < m ∧ leap = true then 1 else 0)

def daysBeforeMonth (y m : Nat) : Nat := daysBeforeMonthB (isLeap y) m

/-- CPython _days_before_year: days before January 1st of the given year. -/
def daysBeforeYear (y : Nat) : Nat :=
  (y - 1) * 365 + (y - 1) / 4 - (y - 1) / 100 + (y - 1) / 400

/-- A datetime.date value: the (year, month, day) components. -/
structure Date where
  year : Nat
  month : Nat
  day : Nat
deriving DecidableEq

/-- CPython date.toordinal: day number in the proleptic Gregorian calendar,
with 0001-01-01 being day 1.  Subtraction of dates is subtraction of ordinals. -/
def toOrdinal (d : Date) : Nat :=
  daysBeforeYear d.year + daysBeforeMonth d.year d.month + d.day

/-- The range check performed by date.fromisoformat (via the date constructor):
year at least 1, month 1..12, day 1..days-in-month.  The year is at most 9999
automatically because it comes from four digits. -/
def validDate (d : Date) : Prop :=
  1 ≤ d.year ∧ 1 ≤ d.month ∧ d.month ≤ 12 ∧ 1 ≤ d.day ∧ d.day ≤ monthLen d.year d.month

instance (d : Date) : Decidable (validDate d) := by
  unfold validDate; infer_instance

/-- CPython date comparison: lexicographic on (year, month, day). -/
def dateLt (a b : Date) : Prop :=
  a.year < b.year ∨ (a.year = b.year ∧
    (a.month < b.month ∨ (a.month = b.month ∧ a.day < b.day)))

instance (a b : Date) : Decidable (dateLt a b) := by
  unfold dateLt; infer_instance

/-- Date order as used in the claims: a is no later than b. -/
def dateLe (a b : Date) : Prop := a = b ∨ dateLt a b

/-! ### checks.py: regex scan and date extraction -/

/-- One step of the regex scan: fuel-indexed so that the recursion is
structural (the fuel is an upper bound on the characters left; every call
site passes at least the list length, so the scan never runs dry). -/
def findDateMatchesAux : Nat → List Char → List (List Char)
  | 0, _ => []
  | fuel + 1, c1 :: c2 :: c3 :: c4 :: c5 :: c6 :: c7 :: c8 :: c9 :: c10 :: rest =>
    if c1.isDigit && c2.isDigit && c3.isDigit && c4.isDigit && c5 == '-' &&
       c6.isDigit && c7.isDigit && c8 == '-' && c9.isDigit && c10.isDigit then
      [c1, c2, c3, c4, c5, c6, c7, c8, c9, c10] ::
        findDateMatchesAux fuel rest
    else
      findDateMatchesAux fuel (c2 :: c3 :: c4 :: c5 :: c6 :: c7 :: c8 :: c9 :: c10 :: rest)
  | _ + 1, _ => []

/-- re.findall for the pattern of four digits, dash, two digits, dash, two
digits: scan left to right, take the leftmost match, continue after its end
(matches are non-overlapping), position-ordered. -/
def findDateMatches (l : List Char) : List (List Char) :=
  findDateMatchesAux l.length l


def digitVal (c : Char) : Nat := c.toNat - 48

/-- date.fromisoformat on a ten-character match of the date regex: decode the
digits, then range-check year, month, day; a ValueError becomes none. -/
def parseIsoDate (l : List Char) : Option Date :=
  match l with
  | [c1, c2, c3, c4, s1, c5, c6, s2, c7, c8] =>
    let y := ((digitVal c1 * 10 + digitVal c2) * 10 + digitVal c3) * 10 + digitVal c4
    let m := digitVal c5 * 10 + digitVal c6
    let d := digitVal c7 * 10 + digitVal c8
    if s1 = '-' ∧ s2 = '-' ∧ validDate ⟨y, m, d⟩ then some ⟨y, m, d⟩ else none
  | _ => none

/-- checks.py _extract_dates: on a falsy string return (None, None); find the
regex matches; fewer than two means (None, None); parse the first two (a
ValueError from either gives (None, None)); swap if the end precedes the
start. -/
def extract_dates (period_str : Option String) : Option Date × Option Date :=
  match period_str with
  | none => (none, none)
  | some s =>
    if s = "" then (none, none)
    else
      match findDateMatches s.toList with
      | m0 :: m1 :: _ =>
        match parseIsoDate m0, parseIsoDate m1 with
        | some start, some stop =>
          if dateLt stop start then (some stop, some start) else (some start, some stop)
        | _, _ => (none, none)
      | _ => (none, none)

/-- checks.py _length_in_days: inclusive day count, None if either bound is. -/
def length_in_days (start stop : Option Date) : Option Int :=
  match start, stop with
  | some s, some e => some ((toOrdinal e : Int) - (toOrdinal s : Int) + 1)
  | _, _ => none

structure DateComparsion where
  periods_match : Bool
  trip_days : Option Int
deriving DecidableEq

/-- Python `x or 0` on an optional int (0 is falsy, so this agrees with getD). -/
def orZero (o : Option Int) : Int := o.getD 0

/-- checks.py compare_time_periods_with_llm (pure despite the name). -/
def compare_time_periods_with_llm
    (header_time_period summary_time_period : Option String) : DateComparsion :=
  let hp := extract_dates header_time_period
  let sp := extract_dates summary_time_period
  let h_days := length_in_days hp.1 hp.2
  let s_days := length_in_days sp.1 sp.2
  let periods_match :=
    hp.1.isSome && sp.1.isSome && decide (hp.1 = sp.1) && decide (hp.2 = sp.2)
  if h_days = none ∧ s_days = none then
    { periods_match := false, trip_days := none }
  else
    { periods_match := periods_match
      trip_days := if orZero s_days > orZero h_days then s_days else h_days }

/-! ### checks.py: check_total and calculate_allowance -/

structure Invoice where
  amount : ℚ
  date : Option String
deriving DecidableEq

structure InvoicesExtraction where
  invoices : List Invoice
deriving DecidableEq

structure SummaryExtraction where
  total : ℚ
  allowance : ℚ
  transportation_total : ℚ
  accommodation_total : ℚ
  time_period_summary : Option String
deriving DecidableEq

/-- checks.py check_total: sum of the invoice amounts against the summary
total, tolerance 0.01 inclusive. -/
def check_total (invoices_extraction : InvoicesExtraction)
    (summary_extraction : SummaryExtraction) : Bool :=
  let invoice_sum := (invoices_extraction.invoices.map (fun inv => inv.amount)).sum
  decide (|invoice_sum - summary_extraction.total| ≤ 1/100)

structure AllowanceCalculation where
  days : Int
  expected_allowance : ℚ
  matches_summary : Bool
deriving DecidableEq

/-- checks.py calculate_allowance: fall back to a zero/false result when
anything is missing, otherwise expected = daily_rate * trip_days with
tolerance 0.01. -/
def calculate_allowance (date_comparsion : DateComparsion)
    (daily_rate extracted_allowance : Option ℚ) : AllowanceCalculation :=
  match date_comparsion.trip_days, daily_rate, extracted_allowance with
  | some days, some rate, some extracted =>
    let expected_allowance := rate * (days : ℚ)
    { days := days
      expected_allowance := expected_allowance
      matches_summary := decide (|expected_allowance - extracted| ≤ 1/100) }
  | td, _, _ =>
    { days := orZero td, expected_allowance := 0, matches_summary := false }

/-! ### main.py: the older check_total variant (dict input, skipping) -/

/-- A JSON-ish amount: a number, or a value on which Python float() raises. -/
inductive JsonNum
  | num (q : ℚ)
  | nonnum
deriving DecidableEq

/-- The running sum of main.py check_total: each invoice dict contributes its
amount (missing key defaults to 0.0); entries where float() raises are
skipped by the try/except. -/
def skippedSum (invoices : List (Option JsonNum)) : ℚ :=
  invoices.foldl
    (fun acc a =>
      match a with
      | none => acc + 0
      | some (JsonNum.num q) => acc + q
      | some JsonNum.nonnum => acc)
    0

/-- summary.get("total", 0.0) with the float() fallback to 0.0. -/
def totalValue (total : Option JsonNum) : ℚ :=
  match total with
  | some (JsonNum.num q) => q
  | _ => 0

/-- main.py check_total: strict comparison abs(sum - total) < 0.01. -/
def main_check_total (invoices : List (Option JsonNum)) (total : Option JsonNum) : Bool :=
  decide (|skippedSum invoices - totalValue total| < 1/100)

/-! ### Claim-side (spec-worded) definitions for C1 -/

/-- Spec wording: a side is valid when both extracted bounds are present. -/
def validSide (p : Option String) : Bool :=
  (extract_dates p).1.isSome && (extract_dates p).2.isSome

/-- Spec wording: periods match iff both sides are valid and the (start, end)
pairs are equal. -/
def periodsMatchSpec (h s : Option String) : Bool :=
  validSide h && validSide s && decide (extract_dates h = extract_dates s)

/-- Spec wording: the inclusive day count of whichever side is longer, ties
favoring the header; absent when neither side is valid. -/
def tripDaysSpec (h s : Option String) : Option Int :=
  let hd := length_in_days (extract_dates h).1 (extract_dates h).2
  let sd := length_in_days (extract_dates s).1 (extract_dates s).2
  match hd, sd with
  | none, none => none
  | some a, none => some a
  | none, some b => some b
  | some a, some b => if a < b then some b else some a

/-! ### Remaining data model (models/expense.py) -/

structure PdfSections where
  header : String
  invoices : String
  summary : String
deriving DecidableEq

structure HeaderExtraction where
  destination : Option String
  time_period_header : Option String
  ticket_id : Option String
deriving DecidableEq

structure RateSelection where
  matched_city : Option String
  daily_rate : Option ℚ
deriving DecidableEq

structure ApprovalDecision where
  approve : Bool
  comment : String
deriving DecidableEq

/-- A backend ticket record: a JSON dict whose ticketStatus and comment keys
the code writes, with the rest of the payload opaque. -/
structure TicketData where
  ticketStatus : Option String
  comment : Option String
  payload : List (String × String)
deriving DecidableEq

/-! ### backend_tools.py -/

/-- Python runtime errors the embedded code itself can raise. -/
inductive PyErr
  | attributeError
  | typeError
deriving DecidableEq

/-- External effects a step can perform (backend HTTP calls, LLM calls,
reading the PDF). -/
inductive Effect
  | pdfRead
  | llmCall (tag : String)
  | backendGetAllowances
  | backendGetTicket (id : String)
  | backendPut (payload : TicketData)
deriving DecidableEq

/-- A Python value that is either a str or a dict: backend_tools.py
check_ticket_exists declares a dict parameter, but its caller in the graph
passes the ticket-id string. -/
inductive PyObj
  | pyStr (s : String)
  | pyDict (entries : List (String × String))
deriving DecidableEq

/-- Attribute access expense_report.get(key): fine on a dict, raises
AttributeError on a str (str has no attribute get). -/
def pyGet (o : PyObj) (key : String) : Except PyErr (Option String) :=
  match o with
  | .pyDict es => .ok ((es.find? (fun kv => kv.1 == key)).map (fun kv => kv.2))
  | .pyStr _ => .error .attributeError

/-- Oracles for the external collaborators (LLM, HTTP backend, PDF reader).
Each oracle returns the final outcome of the collaborator call after the
error handling the Python code wraps around it (transport or parse failures
degrade to empty or negative results and never raise). -/
structure Env where
  extractSections : String → PdfSections
  llmHeader : String → HeaderExtraction
  llmInvoices : String → InvoicesExtraction
  llmSummary : String → SummaryExtraction
  backendAllowances : List (String × ℚ)
  ticketLookup : String → Bool × Option TicketData
  llmRate : Option String → List (String × ℚ) → RateSelection

/-- backend_tools.py check_ticket_exists: reads expense_report.get("ticket_id")
(the parameter is typed as a dict; on a str this raises AttributeError), then
short-circuits on a falsy id, else queries the backend; every HTTP or parse
failure degrades to (False, None). -/
def check_ticket_exists (env : Env) (expense_report : PyObj) :
    Except PyErr ((Bool × Option TicketData) × List Effect) := do
  let ticket_id ← pyGet expense_report "ticket_id"
  match ticket_id with
  | none => pure ((false, none), [])
  | some t =>
    if t = "" then pure ((false, none), [])
    else
      let r := env.ticketLookup t
      pure ((r.1, r.2), [Effect.backendGetTicket t])

/-- backend_tools.py update_ticket_status: returns after a log line when
ticket_id is falsy; otherwise mutates ticket_data["ticketStatus"] and
["comment"] - which raises TypeError when ticket_data is None, the only
unguarded input - then PUTs the record (HTTP failures only logged). -/
def update_ticket_status (ticket_id : Option String) (decision : ApprovalDecision)
    (ticket_data : Option TicketData) : Except PyErr (Unit × List Effect) :=
  match ticket_id with
  | none => .ok ((), [])
  | some t =>
    if t = "" then .ok ((), [])
    else
      match ticket_data with
      | none => .error .typeError
      | some td =>
        let td' := { td with
          ticketStatus := some (if decision.approve then "APPROVED" else "REJECTED")
          comment := some decision.comment }
        .ok ((), [Effect.backendPut td'])

/-! ### llm_tools.py build_approval_decision_with_llm -/

/-- Names of the failed checks, in the order the prompt lists the values. -/
def failedChecks (total_ok ticket_exists matches_summary dates_ok : Bool) : List String :=
  (if total_ok then [] else ["total_ok"]) ++
  (if ticket_exists then [] else ["ticket_exists"]) ++
  (if matches_summary then [] else ["allowance_calculation.matches_summary"]) ++
  (if dates_ok then [] else ["date_comparsion.periods_match"])

/-- Modelled from the spec: build_approval_decision_with_llm delegates the
decision to an external LLM, whose behaviour is fixed by the rules stated in
the prompt (llm_tools.py lines 295-298): approve is true only when all four
booleans are true, false as soon as one is false, with a short rationale
naming the failed checks.  The LLM is modelled as an agent that follows
those rules. -/
def build_approval_decision_with_llm (total_ok ticket_exists : Bool)
    (allowance_calc : AllowanceCalculation) (dates_ok : Bool) : ApprovalDecision :=
  let ok := total_ok && ticket_exists && allowance_calc.matches_summary && dates_ok
  { approve := ok
    comment :=
      if ok then "All checks passed."
      else "Rejected; failed checks: " ++
        String.intercalate ", " (failedChecks total_ok ticket_exists
          allowance_calc.matches_summary dates_ok) }

/-! ### graph_workflow.py: state schema, nodes, graph -/

/-- The LangGraph shared state (TypedDict, total=False): every key optional.
The outer Option is key presence; ticket_data also has an inner Option
because the code stores the value None under that key. -/
structure GraphState where
  pdf_path : Option String := none
  pdf_sections : Option PdfSections := none
  header_extraction : Option HeaderExtraction := none
  invoices_extraction : Option InvoicesExtraction := none
  summary_extraction : Option SummaryExtraction := none
  allowances : Option (List (String × ℚ)) := none
  total_ok : Option Bool := none
  ticket_exists : Option Bool := none
  allowance_calculation : Option AllowanceCalculation := none
  ticket_data : Option (Option TicketData) := none
  rate_selection : Option RateSelection := none
  date_comparsion : Option DateComparsion := none
  approval_decision : Option ApprovalDecision := none
deriving DecidableEq

/-- The empty partial update (a node returning the empty dict). -/
def emptyUpdate : GraphState := {}

/-- Per-key merge: a key present in the update overrides, an absent key
leaves the old value (LangGraph merges a node's returned dict into the
state). -/
def ov {α : Type} (new old : Option α) : Option α :=
  match new with
  | some v => some v
  | none => old

/-- Merge a node's partial update into the shared state. -/
def mergeState (s u : GraphState) : GraphState where
  pdf_path := ov u.pdf_path s.pdf_path
  pdf_sections := ov u.pdf_sections s.pdf_sections
  header_extraction := ov u.header_extraction s.header_extraction
  invoices_extraction := ov u.invoices_extraction s.invoices_extraction
  summary_extraction := ov u.summary_extraction s.summary_extraction
  allowances := ov u.allowances s.allowances
  total_ok := ov u.total_ok s.total_ok
  ticket_exists := ov u.ticket_exists s.ticket_exists
  allowance_calculation := ov u.allowance_calculation s.allowance_calculation
  ticket_data := ov u.ticket_data s.ticket_data
  rate_selection := ov u.rate_selection s.rate_selection
  date_comparsion := ov u.date_comparsion s.date_comparsion
  approval_decision := ov u.approval_decision s.approval_decision

/-- Result of running one node: either a Python exception, or a partial
state update together with the external effects performed. -/
def NodeOut : Type := Except PyErr (GraphState × List Effect)

def extract_pdf_node (env : Env) (s : GraphState) : NodeOut :=
  match s.pdf_path with
  | none => .ok ({}, [])
  | some p => .ok ({ pdf_sections := some (env.extractSections p) }, [.pdfRead])

def extract_data_node (env : Env) (s : GraphState) : NodeOut :=
  match s.pdf_sections with
  | none => .ok ({}, [])
  | some ps =>
    .ok ({ header_extraction := some (env.llmHeader ps.header)
           invoices_extraction := some (env.llmInvoices ps.invoices)
           summary_extraction := some (env.llmSummary ps.summary) },
         [.llmCall "header", .llmCall "invoices", .llmCall "summary"])

def get_allowances_node (env : Env) (_ : GraphState) : NodeOut :=
  .ok ({ allowances := some env.backendAllowances }, [.backendGetAllowances])

/-- header.ticket_id if header else None -/
def tidOf (s : GraphState) : Option String :=
  match s.header_extraction with
  | some h => h.ticket_id
  | none => none

/-- graph_workflow.py check_ticket_exists_node: short-circuit on a falsy
ticket_id; otherwise call backend_tools.check_ticket_exists passing the
ticket-id string where that function expects the expense-report dict. -/
def check_ticket_exists_node (env : Env) (s : GraphState) : NodeOut :=
  match tidOf s with
  | none => .ok ({ ticket_exists := some false, ticket_data := some none }, [])
  | some t =>
    if t = "" then .ok ({ ticket_exists := some false, ticket_data := some none }, [])
    else do
      let (r, effs) ← check_ticket_exists env (.pyStr t)
      .ok ({ ticket_exists := some r.1, ticket_data := some r.2 }, effs)

def check_total_node (_ : Env) (s : GraphState) : NodeOut :=
  match s.invoices_extraction, s.summary_extraction with
  | some invoices, some summary => .ok ({ total_ok := some (check_total invoices summary) }, [])
  | _, _ => .ok ({}, [])

def select_daily_rate_node (env : Env) (s : GraphState) : NodeOut :=
  match s.header_extraction, s.allowances with
  | some h, some al => .ok ({ rate_selection := some (env.llmRate h.destination al) }, [.llmCall "rate_selection"])
  | _, _ => .ok ({}, [])

def compare_dates_node (_ : Env) (s : GraphState) : NodeOut :=
  match s.header_extraction, s.summary_extraction with
  | some h, some su =>
    .ok ({ date_comparsion :=
             some (compare_time_periods_with_llm h.time_period_header su.time_period_summary) }, [])
  | _, _ => .ok ({}, [])

/-- graph_workflow.py allowance_check_node; its guard branch returns the whole
state rather than the empty dict. -/
def allowance_check_node (_ : Env) (s : GraphState) : NodeOut :=
  match s.date_comparsion, s.rate_selection, s.summary_extraction with
  | some dc, some rs, some su =>
    .ok ({ allowance_calculation :=
             some (calculate_allowance dc rs.daily_rate (some su.allowance)) }, [])
  | _, _, _ => .ok (s, [])

def approval_decision_node (_ : Env) (s : GraphState) : NodeOut :=
  match s.total_ok, s.ticket_exists, s.allowance_calculation, s.date_comparsion with
  | some t, some e, some ac, some dc =>
    .ok ({ approval_decision :=
             some (build_approval_decision_with_llm t e ac dc.periods_match) },
         [.llmCall "approval_decision"])
  | _, _, _, _ => .ok (s, [])

/-- state.get("ticket_data"): None both when the key is absent and when the
stored value is None. -/
def joinedTicketData (s : GraphState) : Option TicketData :=
  match s.ticket_data with
  | some (some d) => some d
  | _ => none

/-- graph_workflow.py update_ticket_status_node: guard on ticket_id,
approval_decision and ticket_data (missing values logged, state passed
through unchanged); otherwise perform the backend write-back. -/
def update_ticket_status_node (_ : Env) (s : GraphState) : NodeOut :=
  match tidOf s, s.approval_decision, joinedTicketData s with
  | some t, some decision, some td => do
    let (_, effs) ← update_ticket_status (some t) decision (some td)
    .ok (s, effs)
  | _, _, _ => .ok (s, [])

/-- The ten nodes of the graph built in build_app. -/
inductive Step
  | extract_pdf
  | extract_data
  | get_allowances
  | check_ticket_exists
  | check_total
  | select_daily_rate
  | compare_dates
  | allowance_check
  | approval_decision
  | update_ticket_status
deriving DecidableEq, Fintype

def runStep (env : Env) : Step → GraphState → NodeOut
  | .extract_pdf => extract_pdf_node env
  | .extract_data => extract_data_node env
  | .get_allowances => get_allowances_node env
  | .check_ticket_exists => check_ticket_exists_node env
  | .check_total => check_total_node env
  | .select_daily_rate => select_daily_rate_node env
  | .compare_dates => compare_dates_node env
  | .allowance_check => allowance_check_node env
  | .approval_decision => approval_decision_node env
  | .update_ticket_status => update_ticket_status_node env

/-- run_workflow's initial state: only pdf_path set. -/
def initState (p : String) : GraphState := { pdf_path := some p }

/-- Sequential execution of a list of steps, merging each successful update
into the state; a raised exception aborts the run. -/
def execRun (env : Env) : List Step → GraphState → GraphState
  | [], s => s
  | st :: rest, s =>
    match runStep env st s with
    | .ok (u, _) => execRun env rest (mergeState s u)
    | .error _ => s

/-! ### Declared read and write sets (spec section 4.2 table) -/

inductive FieldName
  | pdf_path
  | pdf_sections
  | header_extraction
  | invoices_extraction
  | summary_extraction
  | allowances
  | total_ok
  | ticket_exists
  | allowance_calculation
  | ticket_data
  | rate_selection
  | date_comparsion
  | approval_decision
deriving DecidableEq, Fintype

/-- The write-set each step declares (spec section 4.2). -/
def declaredWrites : Step → List FieldName
  | .extract_pdf => [.pdf_sections]
  | .extract_data => [.header_extraction, .invoices_extraction, .summary_extraction]
  | .get_allowances => [.allowances]
  | .check_ticket_exists => [.ticket_exists, .ticket_data]
  | .check_total => [.total_ok]
  | .select_daily_rate => [.rate_selection]
  | .compare_dates => [.date_comparsion]
  | .allowance_check => [.allowance_calculation]
  | .approval_decision => [.approval_decision]
  | .update_ticket_status => []

/-- Some declared required input of the step is absent from the state, as
tested by the node's own guard. -/
def readsMissing : Step → GraphState → Prop
  | .extract_pdf, s => s.pdf_path = none
  | .extract_data, s => s.pdf_sections = none
  | .get_allowances, _ => False
  | .check_ticket_exists, s => tidOf s = none
  | .check_total, s => s.invoices_extraction = none ∨ s.summary_extraction = none
  | .select_daily_rate, s => s.header_extraction = none ∨ s.allowances = none
  | .compare_dates, s => s.header_extraction = none ∨ s.summary_extraction = none
  | .allowance_check, s =>
      s.date_comparsion = none ∨ s.rate_selection = none ∨ s.summary_extraction = none
  | .approval_decision, s =>
      s.total_ok = none ∨ s.ticket_exists = none ∨
      s.allowance_calculation = none ∨ s.date_comparsion = none
  | .update_ticket_status, s =>
      tidOf s = none ∨ s.approval_decision = none ∨ joinedTicketData s = none

/-- Field-wise persistence: whatever the first state holds, the second holds
with the same value. -/
def pres {α : Type} (a b : Option α) : Prop := ∀ v, a = some v → b = some v

/-- The shared state only grows: no field is removed, no present value is
changed. -/
def statePreserved (s t : GraphState) : Prop :=
  pres s.pdf_path t.pdf_path ∧
  pres s.pdf_sections t.pdf_sections ∧
  pres s.header_extraction t.header_extraction ∧
  pres s.invoices_extraction t.invoices_extraction ∧
  pres s.summary_extraction t.summary_extraction ∧
  pres s.allowances t.allowances ∧
  pres s.total_ok t.total_ok ∧
  pres s.ticket_exists t.ticket_exists ∧
  pres s.allowance_calculation t.allowance_calculation ∧
  pres s.ticket_data t.ticket_data ∧
  pres s.rate_selection t.rate_selection ∧
  pres s.date_comparsion t.date_comparsion ∧
  pres s.approval_decision t.approval_decision

/-- Ownership invariant: every field other than the initial pdf_path is
present only if the unique step that declares it as output has already run. -/
def stateInv (done : List Step) (s : GraphState) : Prop :=
  (s.pdf_sections ≠ none → Step.extract_pdf ∈ done) ∧
  (s.header_extraction ≠ none → Step.extract_data ∈ done) ∧
  (s.invoices_extraction ≠ none → Step.extract_data ∈ done) ∧
  (s.summary_extraction ≠ none → Step.extract_data ∈ done) ∧
  (s.allowances ≠ none → Step.get_allowances ∈ done) ∧
  (s.total_ok ≠ none → Step.check_total ∈ done) ∧
  (s.ticket_exists ≠ none → Step.check_ticket_exists ∈ done) ∧
  (s.ticket_data ≠ none → Step.check_ticket_exists ∈ done) ∧
  (s.rate_selection ≠ none → Step.select_daily_rate ∈ done) ∧
  (s.date_comparsion ≠ none → Step.compare_dates ∈ done) ∧
  (s.allowance_calculation ≠ none → Step.allowance_check ∈ done) ∧
  (s.approval_decision ≠ none → Step.approval_decision ∈ done)

/-- A fixed trivial environment, used to instantiate universally quantified
theorems at concrete inputs. -/
def envT : Env where
  extractSections := fun _ => { header := "", invoices := "", summary := "" }
  llmHeader := fun _ => { destination := none, time_period_header := none, ticket_id := none }
  llmInvoices := fun _ => { invoices := [] }
  llmSummary := fun _ =>
    { total := 0, allowance := 0, transportation_total := 0
      accommodation_total := 0, time_period_summary := none }
  backendAllowances := []
  ticketLookup := fun _ => (false, none)
  llmRate := fun _ _ => { matched_city := none, daily_rate := none }

/-! ### Concrete states used to instantiate the theorems -/

/-- A header extraction carrying the ticket id from the end-to-end scenario. -/
def header992 : HeaderExtraction :=
  { destination := some "Microsoft HQ, One Microsoft Way, Redmond, WA"
    time_period_header := some "2024-03-01 – 2024-03-05"
    ticket_id := some "992211" }

/-- A reachable state right after extract_data produced a ticket id. -/
def s992 : GraphState := { initState "report.pdf" with header_extraction := some header992 }

/-- A state in which update_ticket_status has its decision but no ticket data. -/
def sGuard : GraphState :=
  { initState "report.pdf" with approval_decision := some { approve := true, comment := "ok" } }

/-- A state in which all four approval inputs are present. -/
def sFull : GraphState :=
  { initState "report.pdf" with
    total_ok := some true
    ticket_exists := some true
    allowance_calculation := some { days := 4, expected_allowance := 200, matches_summary := true }
    date_comparsion := some { periods_match := true, trip_days := some 4 } }

/-- A state whose header extraction has an empty ticket id. -/
def sEmptyTid : GraphState :=
  { initState "report.pdf" with
    header_extraction :=
      some { destination := some "X", time_period_header := none, ticket_id := some "" } }

/-- A sample backend ticket record. -/
def tdSample : TicketData :=
  { ticketStatus := some "OPEN", comment := none, payload := [("ticketID", "992211")] }

/-! ### Calendar arithmetic lemmas -/

theorem dbm_add_len_le :
    ∀ (L : Bool), ∀ m1 < 13, ∀ m2 < 13, 1 ≤ m1 → m1 < m2 →
      daysBeforeMonthB L m1 + monthLenB L m1 ≤ daysBeforeMonthB L m2 := by
  decide

theorem dbm_add_len_le_year :
    ∀ (L : Bool), ∀ m < 13, 1 ≤ m →
      daysBeforeMonthB L m + monthLenB L m ≤ 365 + (if L then 1 else 0) := by
  decide

theorem dby_succ_leap (y : Nat) (hy : 1 ≤ y)
    (h : y % 4 = 0 ∧ (y % 100 ≠ 0 ∨ y % 400 = 0)) :
    daysBeforeYear (y + 1) = daysBeforeYear y + 366 := by
  simp only [daysBeforeYear]
  omega

set_option maxHeartbeats 1600000 in
theorem dby_succ_nonleap (y : Nat) (hy : 1 ≤ y)
    (h : ¬ (y % 4 = 0 ∧ (y % 100 ≠ 0 ∨ y % 400 = 0))) :
    daysBeforeYear (y + 1) = daysBeforeYear y + 365 := by
  have h2 : y % 4 ≠ 0 ∨ (y % 100 = 0 ∧ y % 400 ≠ 0) := by tauto
  simp only [daysBeforeYear]
  rcases h2 with h2 | ⟨h2, h3⟩
  · omega
  · omega

theorem dby_succ (y : Nat) (hy : 1 ≤ y) :
    daysBeforeYear (y + 1) = daysBeforeYear y + (365 + (if isLeap y then 1 else 0)) := by
  by_cases hL : isLeap y = true
  · rw [if_pos hL]
    have hcond : y % 4 = 0 ∧ (y % 100 ≠ 0 ∨ y % 400 = 0) := by
      simpa [isLeap] using hL
    have := dby_succ_leap y hy hcond
    omega
  · rw [if_neg hL]
    have hcond : ¬ (y % 4 = 0 ∧ (y % 100 ≠ 0 ∨ y % 400 = 0)) := by
      simpa [isLeap] using hL
    have := dby_succ_nonleap y hy hcond
    omega

theorem dby_step (y : Nat) : daysBeforeYear y ≤ daysBeforeYear (y + 1) := by
  unfold daysBeforeYear; omega

theorem dby_mono {y1 y2 : Nat} (h : y1 ≤ y2) : daysBeforeYear y1 ≤ daysBeforeYear y2 := by
  induction y2 with
  | zero => simpa [Nat.le_zero.mp h]
  | succ n ih =>
    rcases Nat.lt_or_ge y1 (n + 1) with hlt | hge
    · exact le_trans (ih (Nat.lt_succ_iff.mp hlt)) (dby_step n)
    · have : y1 = n + 1 := le_antisymm h hge
      simp [this]

theorem ord_lt_of_dateLt {a b : Date} (ha : validDate a) (hb : validDate b)
    (h : dateLt a b) : toOrdinal a < toOrdinal b := by
  obtain ⟨hay, ham1, ham2, had1, had2⟩ := ha
  obtain ⟨hby, hbm1, hbm2, hbd1, hbd2⟩ := hb
  unfold toOrdinal daysBeforeMonth
  unfold monthLen at had2 hbd2
  rcases h with hy | ⟨hy, hm | ⟨hm, hd⟩⟩
  · have h1 : daysBeforeMonthB (isLeap a.year) a.month + a.day ≤
        365 + (if isLeap a.year then 1 else 0) := by
      have := dbm_add_len_le_year (isLeap a.year) a.month (by omega) ham1
      omega
    have h2 : daysBeforeYear a.year + (365 + (if isLeap a.year then 1 else 0)) =
        daysBeforeYear (a.year + 1) := (dby_succ a.year hay).symm
    have h3 : daysBeforeYear (a.year + 1) ≤ daysBeforeYear b.year := dby_mono (by omega)
    omega
  · have h1 : daysBeforeMonthB (isLeap a.year) a.month + monthLenB (isLeap a.year) a.month ≤
        daysBeforeMonthB (isLeap a.year) b.month :=
      dbm_add_len_le (isLeap a.year) a.month (by omega) b.month (by omega) ham1 hm
    rw [hy] at h1 had2 ⊢
    omega
  · rw [hy, hm]
    omega

theorem dateLt_trichotomy (a b : Date) : dateLt a b ∨ a = b ∨ dateLt b a := by
  obtain ⟨y1, m1, d1⟩ := a
  obtain ⟨y2, m2, d2⟩ := b
  simp only [dateLt, Date.mk.injEq]
  omega

theorem dateLt_asymm {a b : Date} (h : dateLt a b) : ¬ dateLt b a := by
  obtain ⟨y1, m1, d1⟩ := a
  obtain ⟨y2, m2, d2⟩ := b
  simp only [dateLt] at h ⊢
  omega

theorem ord_le_of_not_dateLt {a b : Date} (ha : validDate a) (hb : validDate b)
    (h : ¬ dateLt b a) : toOrdinal a ≤ toOrdinal b := by
  rcases dateLt_trichotomy a b with hlt | heq | hgt
  · exact le_of_lt (ord_lt_of_dateLt ha hb hlt)
  · rw [heq]
  · exact absurd hgt h

/-! ### Extraction lemmas -/

theorem parse_valid {l : List Char} {d : Date} (h : parseIsoDate l = some d) :
    validDate d := by
  unfold parseIsoDate at h
  split at h
  · dsimp only at h
    split_ifs at h with hc
    cases h
    exact hc.2.2
  · exact absurd h (by simp)

theorem extract_shape (p : Option String) :
    extract_dates p = (none, none) ∨
      ∃ a b, extract_dates p = (some a, some b) ∧
        validDate a ∧ validDate b ∧ ¬ dateLt b a := by
  cases p with
  | none => left; rfl
  | some s =>
    simp only [extract_dates]
    split_ifs with hs
    · left; rfl
    · rcases hm : findDateMatches s.toList with _ | ⟨m0, _ | ⟨m1, rest⟩⟩
      · left; rfl
      · left; rfl
      · rcases hp0 : parseIsoDate m0 with _ | d0 <;> rcases hp1 : parseIsoDate m1 with _ | d1
        · left; simp [hp0, hp1]
        · left; simp [hp0, hp1]
        · left; simp [hp0, hp1]
        · by_cases hlt : dateLt d1 d0
          · right
            refine ⟨d1, d0, ?_, parse_valid hp1, parse_valid hp0, dateLt_asymm hlt⟩
            simp [hp0, hp1, hlt]
          · right
            refine ⟨d0, d1, ?_, parse_valid hp0, parse_valid hp1, hlt⟩
            simp [hp0, hp1, hlt]

theorem extract_fields {p : Option String} {a b : Date}
    (h : extract_dates p = (some a, some b)) :
    validDate a ∧ validDate b ∧ ¬ dateLt b a := by
  rcases extract_shape p with h0 | ⟨c, d, he, hvc, hvd, hcd⟩
  · rw [h0] at h
    simp at h
  · rw [he] at h
    obtain ⟨rfl, rfl⟩ : c = a ∧ d = b := by
      have h1 := congrArg Prod.fst h
      have h2 := congrArg Prod.snd h
      simp only [Prod.fst, Prod.snd] at h1 h2
      exact ⟨Option.some.inj h1, Option.some.inj h2⟩
    exact ⟨hvc, hvd, hcd⟩

theorem extract_days_pos {p : Option String} {a b : Date}
    (h : extract_dates p = (some a, some b)) :
    1 ≤ (toOrdinal b : Int) - (toOrdinal a : Int) + 1 := by
  obtain ⟨hva, hvb, hnl⟩ := extract_fields h
  have := ord_le_of_not_dateLt hva hvb hnl
  omega

theorem compare_eq_specForm (h s : Option String) :
    compare_time_periods_with_llm h s =
      { periods_match := periodsMatchSpec h s, trip_days := tripDaysSpec h s } := by
  rcases extract_shape h with hh | ⟨a, b, hh, _, _, _⟩ <;>
    rcases extract_shape s with hs | ⟨c, d, hs, _, _, _⟩
  · simp [compare_time_periods_with_llm, periodsMatchSpec, tripDaysSpec, validSide,
      hh, hs, length_in_days]
  · have hpos := extract_days_pos hs
    simp [compare_time_periods_with_llm, periodsMatchSpec, tripDaysSpec, validSide,
      hh, hs, length_in_days, orZero]
    omega
  · have hpos := extract_days_pos hh
    simp [compare_time_periods_with_llm, periodsMatchSpec, tripDaysSpec, validSide,
      hh, hs, length_in_days, orZero]
    omega
  · have hpos1 := extract_days_pos hh
    have hpos2 := extract_days_pos hs
    by_cases hac : a = c <;> by_cases hbd : b = d <;>
      simp [compare_time_periods_with_llm, periodsMatchSpec, tripDaysSpec, validSide,
        hh, hs, length_in_days, orZero, hac, hbd, gt_iff_lt]

/-! ### Merge and preservation lemmas -/

theorem ov_self {α : Type} (a : Option α) : ov a a = a := by
  cases a <;> rfl

theorem pres_self {α : Type} (a : Option α) : pres a a := fun _ h => h

theorem pres_none {α : Type} (b : Option α) : pres (none : Option α) b := by
  intro v h
  cases h

theorem mergeState_empty (s : GraphState) : mergeState s emptyUpdate = s := rfl

theorem mergeState_self (s : GraphState) : mergeState s s = s := by
  show GraphState.mk _ _ _ _ _ _ _ _ _ _ _ _ _ = s
  simp only [mergeState, ov_self]

theorem statePreserved_refl (s : GraphState) : statePreserved s s :=
  ⟨pres_self _, pres_self _, pres_self _, pres_self _, pres_self _, pres_self _,
   pres_self _, pres_self _, pres_self _, pres_self _, pres_self _, pres_self _, pres_self _⟩

theorem statePreserved_trans {s t u : GraphState}
    (h1 : statePreserved s t) (h2 : statePreserved t u) : statePreserved s u := by
  obtain ⟨a1, a2, a3, a4, a5, a6, a7, a8, a9, a10, a11, a12, a13⟩ := h1
  obtain ⟨b1, b2, b3, b4, b5, b6, b7, b8, b9, b10, b11, b12, b13⟩ := h2
  exact ⟨fun v h => b1 v (a1 v h), fun v h => b2 v (a2 v h), fun v h => b3 v (a3 v h),
    fun v h => b4 v (a4 v h), fun v h => b5 v (a5 v h), fun v h => b6 v (a6 v h),
    fun v h => b7 v (a7 v h), fun v h => b8 v (a8 v h), fun v h => b9 v (a9 v h),
    fun v h => b10 v (a10 v h), fun v h => b11 v (a11 v h), fun v h => b12 v (a12 v h),
    fun v h => b13 v (a13 v h)⟩

theorem stateInv_cons {done : List Step} {s : GraphState} (st : Step)
    (h : stateInv done s) : stateInv (st :: done) s := by
  obtain ⟨h1, h2, h3, h4, h5, h6, h7, h8, h9, h10, h11, h12⟩ := h
  exact ⟨fun hx => .tail _ (h1 hx), fun hx => .tail _ (h2 hx), fun hx => .tail _ (h3 hx),
    fun hx => .tail _ (h4 hx), fun hx => .tail _ (h5 hx), fun hx => .tail _ (h6 hx),
    fun hx => .tail _ (h7 hx), fun hx => .tail _ (h8 hx), fun hx => .tail _ (h9 hx),
    fun hx => .tail _ (h10 hx), fun hx => .tail _ (h11 hx), fun hx => .tail _ (h12 hx)⟩

/-- Running any step not yet executed either raises (aborting the run) or
merges an update that preserves every present field and maintains the
ownership invariant. -/
theorem step_preserves (env : Env) (st : Step) (s : GraphState) (done : List Step)
    (hInv : stateInv done s) (hNew : st ∉ done) :
    (∃ e, runStep env st s = .error e) ∨
    ∃ u effs, runStep env st s = .ok (u, effs) ∧
      statePreserved s (mergeState s u) ∧ stateInv (st :: done) (mergeState s u) := by
  obtain ⟨i1, i2, i3, i4, i5, i6, i7, i8, i9, i10, i11, i12⟩ := hInv
  have hInv' : stateInv done s := ⟨i1, i2, i3, i4, i5, i6, i7, i8, i9, i10, i11, i12⟩
  cases st with
  | extract_pdf =>
    rcases hp : s.pdf_path with _ | p
    · right
      refine ⟨emptyUpdate, [], ?_, ?_, ?_⟩
      · simp [runStep, extract_pdf_node, hp, emptyUpdate]
      · rw [mergeState_empty]; exact statePreserved_refl s
      · rw [mergeState_empty]; exact stateInv_cons _ hInv'
    · right
      have hnone : s.pdf_sections = none := by
        by_contra hne; exact hNew (i1 hne)
      refine ⟨{ pdf_sections := some (env.extractSections p) }, [.pdfRead], ?_, ?_, ?_⟩
      · simp [runStep, extract_pdf_node, hp]
      · exact ⟨pres_self _, by rw [hnone]; exact pres_none _, pres_self _, pres_self _,
          pres_self _, pres_self _, pres_self _, pres_self _, pres_self _, pres_self _,
          pres_self _, pres_self _, pres_self _⟩
      · exact ⟨fun _ => .head _, fun hx => .tail _ (i2 hx), fun hx => .tail _ (i3 hx),
          fun hx => .tail _ (i4 hx), fun hx => .tail _ (i5 hx), fun hx => .tail _ (i6 hx),
          fun hx => .tail _ (i7 hx), fun hx => .tail _ (i8 hx), fun hx => .tail _ (i9 hx),
          fun hx => .tail _ (i10 hx), fun hx => .tail _ (i11 hx), fun hx => .tail _ (i12 hx)⟩
  | extract_data =>
    rcases hp : s.pdf_sections with _ | ps
    · right
      refine ⟨emptyUpdate, [], ?_, ?_, ?_⟩
      · simp [runStep, extract_data_node, hp, emptyUpdate]
      · rw [mergeState_empty]; exact statePreserved_refl s
      · rw [mergeState_empty]; exact stateInv_cons _ hInv'
    · right
      have hn1 : s.header_extraction = none := by
        by_contra hne; exact hNew (i2 hne)
      have hn2 : s.invoices_extraction = none := by
        by_contra hne; exact hNew (i3 hne)
      have hn3 : s.summary_extraction = none := by
        by_contra hne; exact hNew (i4 hne)
      refine ⟨{ header_extraction := some (env.llmHeader ps.header)
                invoices_extraction := some (env.llmInvoices ps.invoices)
                summary_extraction := some (env.llmSummary ps.summary) },
              [.llmCall "header", .llmCall "invoices", .llmCall "summary"], ?_, ?_, ?_⟩
      · simp [runStep, extract_data_node, hp]
      · exact ⟨pres_self _, pres_self _, by rw [hn1]; exact pres_none _,
          by rw [hn2]; exact pres_none _, by rw [hn3]; exact pres_none _,
          pres_self _, pres_self _, pres_self _, pres_self _, pres_self _,
          pres_self _, pres_self _, pres_self _⟩
      · exact ⟨fun hx => .tail _ (i1 hx), fun _ => .head _, fun _ => .head _,
          fun _ => .head _, fun hx => .tail _ (i5 hx), fun hx => .tail _ (i6 hx),
          fun hx => .tail _ (i7 hx), fun hx => .tail _ (i8 hx), fun hx => .tail _ (i9 hx),
          fun hx => .tail _ (i10 hx), fun hx => .tail _ (i11 hx), fun hx => .tail _ (i12 hx)⟩
  | get_allowances =>
    right
    have hnone : s.allowances = none := by
      by_contra hne; exact hNew (i5 hne)
    refine ⟨{ allowances := some env.backendAllowances }, [.backendGetAllowances], ?_, ?_, ?_⟩
    · simp [runStep, get_allowances_node]
    · exact ⟨pres_self _, pres_self _, pres_self _, pres_self _, pres_self _,
        by rw [hnone]; exact pres_none _, pres_self _, pres_self _, pres_self _,
        pres_self _, pres_self _, pres_self _, pres_self _⟩
    · exact ⟨fun hx => .tail _ (i1 hx), fun hx => .tail _ (i2 hx), fun hx => .tail _ (i3 hx),
        fun hx => .tail _ (i4 hx), fun _ => .head _, fun hx => .tail _ (i6 hx),
        fun hx => .tail _ (i7 hx), fun hx => .tail _ (i8 hx), fun hx => .tail _ (i9 hx),
        fun hx => .tail _ (i10 hx), fun hx => .tail _ (i11 hx), fun hx => .tail _ (i12 hx)⟩
  | check_ticket_exists =>
    have hn1 : s.ticket_exists = none := by
      by_contra hne; exact hNew (i7 hne)
    have hn2 : s.ticket_data = none := by
      by_contra hne; exact hNew (i8 hne)
    have hshape : ∀ r : Bool × Option TicketData, ∀ effs,
        runStep env Step.check_ticket_exists s =
          .ok ({ ticket_exists := some r.1, ticket_data := some r.2 }, effs) →
        ∃ u effs', runStep env Step.check_ticket_exists s = .ok (u, effs') ∧
          statePreserved s (mergeState s u) ∧
          stateInv (Step.check_ticket_exists :: done) (mergeState s u) := by
      intro r effs heq
      refine ⟨_, _, heq, ?_, ?_⟩
      · exact ⟨pres_self _, pres_self _, pres_self _, pres_self _, pres_self _,
          pres_self _, pres_self _, by rw [hn1]; exact pres_none _, pres_self _,
          by rw [hn2]; exact pres_none _, pres_self _, pres_self _, pres_self _⟩
      · exact ⟨fun hx => .tail _ (i1 hx), fun hx => .tail _ (i2 hx), fun hx => .tail _ (i3 hx),
          fun hx => .tail _ (i4 hx), fun hx => .tail _ (i5 hx), fun hx => .tail _ (i6 hx),
          fun _ => .head _, fun _ => .head _, fun hx => .tail _ (i9 hx),
          fun hx => .tail _ (i10 hx), fun hx => .tail _ (i11 hx), fun hx => .tail _ (i12 hx)⟩
    rcases ht : tidOf s with _ | t
    · exact .inr (hshape (false, none) [] (by simp [runStep, check_ticket_exists_node, ht]))
    · by_cases he : t = ""
      · exact .inr (hshape (false, none) [] (by simp [runStep, check_ticket_exists_node, ht, he]))
      · left
        refine ⟨.attributeError, ?_⟩
        simp [runStep, check_ticket_exists_node, ht, he, check_ticket_exists, pyGet,
          Bind.bind, Except.bind]
  | check_total =>
    rcases hi : s.invoices_extraction with _ | inv <;> rcases hsu : s.summary_extraction with _ | su
    case none.none | none.some | some.none =>
      right
      refine ⟨emptyUpdate, [], ?_, ?_, ?_⟩
      · simp [runStep, check_total_node, hi, hsu, emptyUpdate]
      · rw [mergeState_empty]; exact statePreserved_refl s
      · rw [mergeState_empty]; exact stateInv_cons _ hInv'
    case some.some =>
      right
      have hnone : s.total_ok = none := by
        by_contra hne; exact hNew (i6 hne)
      refine ⟨{ total_ok := some (check_total inv su) }, [], ?_, ?_, ?_⟩
      · simp [runStep, check_total_node, hi, hsu]
      · exact ⟨pres_self _, pres_self _, pres_self _, pres_self _, pres_self _,
          pres_self _, by rw [hnone]; exact pres_none _, pres_self _, pres_self _,
          pres_self _, pres_self _, pres_self _, pres_self _⟩
      · exact ⟨fun hx => .tail _ (i1 hx), fun hx => .tail _ (i2 hx), fun hx => .tail _ (i3 hx),
          fun hx => .tail _ (i4 hx), fun hx => .tail _ (i5 hx), fun _ => .head _,
          fun hx => .tail _ (i7 hx), fun hx => .tail _ (i8 hx), fun hx => .tail _ (i9 hx),
          fun hx => .tail _ (i10 hx), fun hx => .tail _ (i11 hx), fun hx => .tail _ (i12 hx)⟩
  | select_daily_rate =>
    rcases hh : s.header_extraction with _ | hd <;> rcases ha : s.allowances with _ | al
    case none.none | none.some | some.none =>
      right
      refine ⟨emptyUpdate, [], ?_, ?_, ?_⟩
      · simp [runStep, select_daily_rate_node, hh, ha, emptyUpdate]
      · rw [mergeState_empty]; exact statePreserved_refl s
      · rw [mergeState_empty]; exact stateInv_cons _ hInv'
    case some.some =>
      right
      have hnone : s.rate_selection = none := by
        by_contra hne; exact hNew (i9 hne)
      refine ⟨{ rate_selection := some (env.llmRate hd.destination al) },
              [.llmCall "rate_selection"], ?_, ?_, ?_⟩
      · simp [runStep, select_daily_rate_node, hh, ha]
      · exact ⟨pres_self _, pres_self _, pres_self _, pres_self _, pres_self _,
          pres_self _, pres_self _, pres_self _, pres_self _, pres_self _,
          by rw [hnone]; exact pres_none _, pres_self _, pres_self _⟩
      · exact ⟨fun hx => .tail _ (i1 hx), fun hx => .tail _ (i2 hx), fun hx => .tail _ (i3 hx),
          fun hx => .tail _ (i4 hx), fun hx => .tail _ (i5 hx), fun hx => .tail _ (i6 hx),
          fun hx => .tail _ (i7 hx), fun hx => .tail _ (i8 hx), fun _ => .head _,
          fun hx => .tail _ (i10 hx), fun hx => .tail _ (i11 hx), fun hx => .tail _ (i12 hx)⟩
  | compare_dates =>
    rcases hh : s.header_extraction with _ | hd <;> rcases hsu : s.summary_extraction with _ | su
    case none.none | none.some | some.none =>
      right
      refine ⟨emptyUpdate, [], ?_, ?_, ?_⟩
      · simp [runStep, compare_dates_node, hh, hsu, emptyUpdate]
      · rw [mergeState_empty]; exact statePreserved_refl s
      · rw [mergeState_empty]; exact stateInv_cons _ hInv'
    case some.some =>
      right
      have hnone : s.date_comparsion = none := by
        by_contra hne; exact hNew (i10 hne)
      refine ⟨{ date_comparsion :=
                  some (compare_time_periods_with_llm hd.time_period_header su.time_period_summary) },
              [], ?_, ?_, ?_⟩
      · simp [runStep, compare_dates_node, hh, hsu]
      · exact ⟨pres_self _, pres_self _, pres_self _, pres_self _, pres_self _,
          pres_self _, pres_self _, pres_self _, pres_self _, pres_self _,
          pres_self _, by rw [hnone]; exact pres_none _, pres_self _⟩
      · exact ⟨fun hx => .tail _ (i1 hx), fun hx => .tail _ (i2 hx), fun hx => .tail _ (i3 hx),
          fun hx => .tail _ (i4 hx), fun hx => .tail _ (i5 hx), fun hx => .tail _ (i6 hx),
          fun hx => .tail _ (i7 hx), fun hx => .tail _ (i8 hx), fun hx => .tail _ (i9 hx),
          fun _ => .head _, fun hx => .tail _ (i11 hx), fun hx => .tail _ (i12 hx)⟩
  | allowance_check =>
    rcases hdc : s.date_comparsion with _ | dc
    · right
      refine ⟨s, [], ?_, ?_, ?_⟩
      · simp [runStep, allowance_check_node, hdc]
      · rw [mergeState_self]; exact statePreserved_refl s
      · rw [mergeState_self]; exact stateInv_cons _ hInv'
    · rcases hrs : s.rate_selection with _ | rs
      · right
        refine ⟨s, [], ?_, ?_, ?_⟩
        · simp [runStep, allowance_check_node, hdc, hrs]
        · rw [mergeState_self]; exact statePreserved_refl s
        · rw [mergeState_self]; exact stateInv_cons _ hInv'
      · rcases hsu : s.summary_extraction with _ | su
        · right
          refine ⟨s, [], ?_, ?_, ?_⟩
          · simp [runStep, allowance_check_node, hdc, hrs, hsu]
          · rw [mergeState_self]; exact statePreserved_refl s
          · rw [mergeState_self]; exact stateInv_cons _ hInv'
        · right
          have hnone : s.allowance_calculation = none := by
            by_contra hne; exact hNew (i11 hne)
          refine ⟨{ allowance_calculation :=
                      some (calculate_allowance dc rs.daily_rate (some su.allowance)) },
                  [], ?_, ?_, ?_⟩
          · simp [runStep, allowance_check_node, hdc, hrs, hsu]
          · exact ⟨pres_self _, pres_self _, pres_self _, pres_self _, pres_self _,
              pres_self _, pres_self _, pres_self _, by rw [hnone]; exact pres_none _,
              pres_self _, pres_self _, pres_self _, pres_self _⟩
          · exact ⟨fun hx => .tail _ (i1 hx), fun hx => .tail _ (i2 hx), fun hx => .tail _ (i3 hx),
              fun hx => .tail _ (i4 hx), fun hx => .tail _ (i5 hx), fun hx => .tail _ (i6 hx),
              fun hx => .tail _ (i7 hx), fun hx => .tail _ (i8 hx), fun hx => .tail _ (i9 hx),
              fun hx => .tail _ (i10 hx), fun _ => .head _, fun hx => .tail _ (i12 hx)⟩
  | approval_decision =>
    rcases hto : s.total_ok with _ | t
    · right
      refine ⟨s, [], ?_, ?_, ?_⟩
      · simp [runStep, approval_decision_node, hto]
      · rw [mergeState_self]; exact statePreserved_refl s
      · rw [mergeState_self]; exact stateInv_cons _ hInv'
    · rcases hte : s.ticket_exists with _ | e
      · right
        refine ⟨s, [], ?_, ?_, ?_⟩
        · simp [runStep, approval_decision_node, hto, hte]
        · rw [mergeState_self]; exact statePreserved_refl s
        · rw [mergeState_self]; exact stateInv_cons _ hInv'
      · rcases hac : s.allowance_calculation with _ | ac
        · right
          refine ⟨s, [], ?_, ?_, ?_⟩
          · simp [runStep, approval_decision_node, hto, hte, hac]
          · rw [mergeState_self]; exact statePreserved_refl s
          · rw [mergeState_self]; exact stateInv_cons _ hInv'
        · rcases hdc : s.date_comparsion with _ | dc
          · right
            refine ⟨s, [], ?_, ?_, ?_⟩
            · simp [runStep, approval_decision_node, hto, hte, hac, hdc]
            · rw [mergeState_self]; exact statePreserved_refl s
            · rw [mergeState_self]; exact stateInv_cons _ hInv'
          · right
            have hnone : s.approval_decision = none := by
              by_contra hne; exact hNew (i12 hne)
            refine ⟨{ approval_decision :=
                        some (build_approval_decision_with_llm t e ac dc.periods_match) },
                    [.llmCall "approval_decision"], ?_, ?_, ?_⟩
            · simp [runStep, approval_decision_node, hto, hte, hac, hdc]
            · exact ⟨pres_self _, pres_self _, pres_self _, pres_self _, pres_self _,
                pres_self _, pres_self _, pres_self _, pres_self _, pres_self _,
                pres_self _, pres_self _, by rw [hnone]; exact pres_none _⟩
            · exact ⟨fun hx => .tail _ (i1 hx), fun hx => .tail _ (i2 hx), fun hx => .tail _ (i3 hx),
                fun hx => .tail _ (i4 hx), fun hx => .tail _ (i5 hx), fun hx => .tail _ (i6 hx),
                fun hx => .tail _ (i7 hx), fun hx => .tail _ (i8 hx), fun hx => .tail _ (i9 hx),
                fun hx => .tail _ (i10 hx), fun hx => .tail _ (i11 hx), fun _ => .head _⟩
  | update_ticket_status =>
    have pass : runStep env Step.update_ticket_status s = .ok (s, []) ∨
        ∃ effs, runStep env Step.update_ticket_status s = .ok (s, effs) := by
      rcases ht : tidOf s with _ | t
      · left; simp [runStep, update_ticket_status_node, ht]
      · rcases hd : s.approval_decision with _ | dec
        · left; simp [runStep, update_ticket_status_node, ht, hd]
        · rcases hj : joinedTicketData s with _ | td
          · left; simp [runStep, update_ticket_status_node, ht, hd, hj]
          · by_cases he : t = ""
            · right
              refine ⟨[], ?_⟩
              simp [runStep, update_ticket_status_node, ht, hd, hj, update_ticket_status, he,
                Bind.bind, Except.bind]
            · right
              refine ⟨[Effect.backendPut
                { td with
                  ticketStatus := some (if dec.approve then "APPROVED" else "REJECTED")
                  comment := some dec.comment }], ?_⟩
              simp [runStep, update_ticket_status_node, ht, hd, hj, update_ticket_status, he,
                Bind.bind, Except.bind]
    right
    rcases pass with hp | ⟨effs, hp⟩
    · refine ⟨s, [], hp, ?_, ?_⟩
      · rw [mergeState_self]; exact statePreserved_refl s
      · rw [mergeState_self]; exact stateInv_cons _ hInv'
    · refine ⟨s, effs, hp, ?_, ?_⟩
      · rw [mergeState_self]; exact statePreserved_refl s
      · rw [mergeState_self]; exact stateInv_cons _ hInv'

theorem stateInv_mono {d1 d2 : List Step} {s : GraphState}
    (hsub : ∀ x ∈ d1, x ∈ d2) (h : stateInv d1 s) : stateInv d2 s := by
  obtain ⟨h1, h2, h3, h4, h5, h6, h7, h8, h9, h10, h11, h12⟩ := h
  exact ⟨fun hx => hsub _ (h1 hx), fun hx => hsub _ (h2 hx), fun hx => hsub _ (h3 hx),
    fun hx => hsub _ (h4 hx), fun hx => hsub _ (h5 hx), fun hx => hsub _ (h6 hx),
    fun hx => hsub _ (h7 hx), fun hx => hsub _ (h8 hx), fun hx => hsub _ (h9 hx),
    fun hx => hsub _ (h10 hx), fun hx => hsub _ (h11 hx), fun hx => hsub _ (h12 hx)⟩

theorem execRun_preserves (env : Env) (l : List Step) :
    ∀ (s : GraphState) (done : List Step),
      stateInv done s → l.Nodup → (∀ st ∈ l, st ∉ done) →
      statePreserved s (execRun env l s) ∧ stateInv (l ++ done) (execRun env l s) := by
  induction l with
  | nil =>
    intro s done hInv _ _
    exact ⟨statePreserved_refl s, hInv⟩
  | cons st rest ih =>
    intro s done hInv hnd hdisj
    rcases step_preserves env st s done hInv (hdisj st (.head _)) with
      ⟨e, herr⟩ | ⟨u, effs, hok, hpres, hinv2⟩
    · simp only [execRun, herr]
      refine ⟨statePreserved_refl s, stateInv_mono ?_ hInv⟩
      intro x hx
      exact List.mem_append.mpr (Or.inr hx)
    · simp only [execRun, hok]
      obtain ⟨hnd1, hnd2⟩ := List.nodup_cons.mp hnd
      have hdisj2 : ∀ x ∈ rest, x ∉ st :: done := by
        intro x hx
        simp only [List.mem_cons]
        rintro (rfl | hxd)
        · exact hnd1 hx
        · exact hdisj x (.tail _ hx) hxd
      have hrest := ih (mergeState s u) (st :: done) hinv2 hnd2 hdisj2
      refine ⟨statePreserved_trans hpres hrest.1, stateInv_mono ?_ hrest.2⟩
      intro x hx
      simp only [List.mem_append, List.mem_cons] at hx ⊢
      tauto

theorem run_prefix_preserves (env : Env) (l1 : List Step) :
    ∀ (l2 : List Step) (s : GraphState) (done : List Step),
      stateInv done s → (l1 ++ l2).Nodup → (∀ st ∈ l1 ++ l2, st ∉ done) →
      statePreserved (execRun env l1 s) (execRun env (l1 ++ l2) s) := by
  induction l1 with
  | nil =>
    intro l2 s done hInv hnd hdisj
    simp only [List.nil_append]
    show statePreserved (execRun env [] s) (execRun env l2 s)
    exact (execRun_preserves env l2 s done hInv hnd hdisj).1
  | cons st rest ih =>
    intro l2 s done hInv hnd hdisj
    rcases step_preserves env st s done hInv (hdisj st (.head _)) with
      ⟨e, herr⟩ | ⟨u, effs, hok, hpres, hinv2⟩
    · simp only [List.cons_append, execRun, herr]
      exact statePreserved_refl s
    · simp only [List.cons_append, execRun, hok]
      have hnd' : (st ∉ rest ∧ st ∉ l2) ∧ (rest ++ l2).Nodup := by simpa using hnd
      have hdisj2 : ∀ x ∈ rest ++ l2, x ∉ st :: done := by
        intro x hx
        simp only [List.mem_cons]
        rintro (rfl | hxd)
        · rcases List.mem_append.mp hx with h | h
          · exact hnd'.1.1 h
          · exact hnd'.1.2 h
        · exact hdisj x (.tail _ hx) hxd
      exact ih l2 (mergeState s u) (st :: done) hinv2 hnd'.2 hdisj2

theorem stateInv_init (p : String) : stateInv [] (initState p) :=
  ⟨fun hx => absurd rfl hx, fun hx => absurd rfl hx, fun hx => absurd rfl hx,
   fun hx => absurd rfl hx, fun hx => absurd rfl hx, fun hx => absurd rfl hx,
   fun hx => absurd rfl hx, fun hx => absurd rfl hx, fun hx => absurd rfl hx,
   fun hx => absurd rfl hx, fun hx => absurd rfl hx, fun hx => absurd rfl hx⟩

/-- Any step other than check_ticket_exists whose declared required inputs
are not all present performs no external effect and merges no change. -/
theorem guard_passthrough (env : Env) (st : Step) (s : GraphState)
    (hne : st ≠ Step.check_ticket_exists) (hmiss : readsMissing st s) :
    ∃ u, runStep env st s = .ok (u, []) ∧ mergeState s u = s := by
  cases st with
  | extract_pdf =>
    simp only [readsMissing] at hmiss
    exact ⟨emptyUpdate, by simp [runStep, extract_pdf_node, hmiss, emptyUpdate],
      mergeState_empty s⟩
  | extract_data =>
    simp only [readsMissing] at hmiss
    exact ⟨emptyUpdate, by simp [runStep, extract_data_node, hmiss, emptyUpdate],
      mergeState_empty s⟩
  | get_allowances =>
    exact absurd hmiss (by simp [readsMissing])
  | check_ticket_exists =>
    exact absurd rfl hne
  | check_total =>
    simp only [readsMissing] at hmiss
    refine ⟨emptyUpdate, ?_, mergeState_empty s⟩
    rcases hi : s.invoices_extraction with _ | inv <;>
      rcases hsu : s.summary_extraction with _ | su <;>
      simp [runStep, check_total_node, hi, hsu, emptyUpdate] <;>
      rcases hmiss with h | h <;> simp_all
  | select_daily_rate =>
    simp only [readsMissing] at hmiss
    refine ⟨emptyUpdate, ?_, mergeState_empty s⟩
    rcases hh : s.header_extraction with _ | hd <;>
      rcases ha : s.allowances with _ | al <;>
      simp [runStep, select_daily_rate_node, hh, ha, emptyUpdate] <;>
      rcases hmiss with h | h <;> simp_all
  | compare_dates =>
    simp only [readsMissing] at hmiss
    refine ⟨emptyUpdate, ?_, mergeState_empty s⟩
    rcases hh : s.header_extraction with _ | hd <;>
      rcases hsu : s.summary_extraction with _ | su <;>
      simp [runStep, compare_dates_node, hh, hsu, emptyUpdate] <;>
      rcases hmiss with h | h <;> simp_all
  | allowance_check =>
    simp only [readsMissing] at hmiss
    refine ⟨s, ?_, mergeState_self s⟩
    rcases hdc : s.date_comparsion with _ | dc <;>
      rcases hrs : s.rate_selection with _ | rs <;>
      rcases hsu : s.summary_extraction with _ | su <;>
      simp [runStep, allowance_check_node, hdc, hrs, hsu] <;>
      rcases hmiss with h | h | h <;> simp_all
  | approval_decision =>
    simp only [readsMissing] at hmiss
    refine ⟨s, ?_, mergeState_self s⟩
    rcases hto : s.total_ok with _ | t <;>
      rcases hte : s.ticket_exists with _ | e <;>
      rcases hac : s.allowance_calculation with _ | ac <;>
      rcases hdc : s.date_comparsion with _ | dc <;>
      simp [runStep, approval_decision_node, hto, hte, hac, hdc] <;>
      rcases hmiss with h | h | h | h <;> simp_all
  | update_ticket_status =>
    simp only [readsMissing] at hmiss
    refine ⟨s, ?_, mergeState_self s⟩
    rcases ht : tidOf s with _ | t <;>
      rcases hd : s.approval_decision with _ | dec <;>
      rcases hj : joinedTicketData s with _ | td <;>
      simp [runStep, update_ticket_status_node, ht, hd, hj] <;>
      rcases hmiss with h | h | h <;> simp_all

/-! ### Claim theorems -/

/-- C1: for every pair of header and summary time-period strings,
compare_time_periods_with_llm extracts the first two ISO dates of each
string (regex scan, position-ordered, fewer than two dates or an invalid
date making the side invalid, a reversed range swapped); periods_match is
true iff both sides are valid and their (start, end) pairs are equal;
trip_days is the inclusive day count of the longer side with ties favoring
the header, absent when neither side is valid.  In particular the two
concrete strings of the spec yield periods_match false and trip_days 6. -/
theorem claim_C1_compare_time_periods :
    (∀ h s, compare_time_periods_with_llm h s =
      { periods_match := periodsMatchSpec h s, trip_days := tripDaysSpec h s }) ∧
    compare_time_periods_with_llm (some "2024-05-02 – 2024-05-05")
        (some "2024-05-02 – 2024-05-07") =
      { periods_match := false, trip_days := some 6 } :=
  ⟨compare_eq_specForm, by decide⟩

/-- C2: the claim says the check_ticket_exists step completes and writes
(ticket_exists, ticket_data) whenever a non-empty ticket id is present.  The
code instead raises: the node passes the ticket-id string to
backend_tools.check_ticket_exists, which expects the expense-report dict and
calls .get on it, an AttributeError on a str.  Evaluated at a reachable
state holding ticket id 992211, the step errors for every environment. -/
theorem claim_C2_check_ticket_exists_raises :
    tidOf s992 = some "992211" ∧
    ∀ (env : Env), runStep env Step.check_ticket_exists s992 = .error PyErr.attributeError := by
  constructor
  · rfl
  · intro env
    simp [runStep, check_ticket_exists_node, s992, tidOf, header992, initState,
      check_ticket_exists, pyGet, Bind.bind, Except.bind]

/-- C4: the ticket write-back update_ticket_status is a log-only no-op when
ticket_id is falsy; with a ticket id and a record it sets ticketStatus to
APPROVED or REJECTED following the decision, sets the comment, and PUTs the
record.  But with a ticket id and an absent record - which the claim says is
also a logged no-op - it raises TypeError, because only ticket_id is
guarded before the record subscript assignments. -/
theorem claim_C4_update_ticket_status :
    update_ticket_status none { approve := false, comment := "no" } (some tdSample) =
      .ok ((), []) ∧
    update_ticket_status (some "") { approve := false, comment := "no" } (some tdSample) =
      .ok ((), []) ∧
    update_ticket_status (some "992211") { approve := true, comment := "ok" } none =
      .error PyErr.typeError ∧
    update_ticket_status (some "992211") { approve := true, comment := "ok" } (some tdSample) =
      .ok ((), [Effect.backendPut
        { tdSample with ticketStatus := some "APPROVED", comment := some "ok" }]) ∧
    update_ticket_status (some "992211") { approve := false, comment := "no" } (some tdSample) =
      .ok ((), [Effect.backendPut
        { tdSample with ticketStatus := some "REJECTED", comment := some "no" }]) := by
  refine ⟨rfl, ?_, ?_, ?_, ?_⟩ <;>
    simp [update_ticket_status, tdSample]

/-- C5: calculate_allowance falls back to days = trip_days or 0, expected 0,
matches false when trip_days, the daily rate or the extracted allowance is
absent; otherwise days = trip_days, expected = rate times days, and
matches_summary holds iff the difference from the extracted allowance is at
most 0.01.  The concrete spec examples evaluate accordingly. -/
theorem claim_C5_calculate_allowance :
    (∀ (dc : DateComparsion) (rate x : Option ℚ),
      (dc.trip_days = none ∨ rate = none ∨ x = none) →
        calculate_allowance dc rate x =
          { days := orZero dc.trip_days, expected_allowance := 0, matches_summary := false }) ∧
    (∀ (dc : DateComparsion) (d : Int) (r x : ℚ), dc.trip_days = some d →
      (calculate_allowance dc (some r) (some x)).days = d ∧
      (calculate_allowance dc (some r) (some x)).expected_allowance = r * (d : ℚ) ∧
      ((calculate_allowance dc (some r) (some x)).matches_summary = true ↔
        |r * (d : ℚ) - x| ≤ 1/100)) ∧
    calculate_allowance { periods_match := true, trip_days := some 4 } (some 50) (some 200) =
      { days := 4, expected_allowance := 200, matches_summary := true } ∧
    (calculate_allowance { periods_match := true, trip_days := some 4 }
      (some 50) (some 199)).matches_summary = false := by
  refine ⟨?_, ?_, ?_, ?_⟩
  · intro dc rate x h
    rcases h with h | h | h <;> rcases hdc : dc.trip_days with _ | d <;>
      rcases rate with _ | r <;> rcases x with _ | xv <;>
      simp_all [calculate_allowance]
  · intro dc d r x h
    simp [calculate_allowance, h, decide_eq_true_eq]
  · norm_num [calculate_allowance]
  · norm_num [calculate_allowance]

/-- C5 witness: the fallback branch at an absent trip_days and the computed
branch at trip_days 4, rate 50, extracted 200. -/
theorem claim_C5_witness :
    ((({ periods_match := false, trip_days := none } : DateComparsion).trip_days = none ∨
        (some (50 : ℚ)) = none ∨ (some (10 : ℚ)) = none) ∧
      calculate_allowance { periods_match := false, trip_days := none } (some 50) (some 10) =
        { days := 0, expected_allowance := 0, matches_summary := false }) ∧
    (({ periods_match := true, trip_days := some 4 } : DateComparsion).trip_days = some 4 ∧
      (calculate_allowance { periods_match := true, trip_days := some 4 }
        (some 50) (some 200)).days = 4) :=
  ⟨⟨Or.inl rfl,
    claim_C5_calculate_allowance.1 _ _ _ (Or.inl rfl)⟩,
   ⟨rfl,
    (claim_C5_calculate_allowance.2.1 _ 4 50 200 rfl).1⟩⟩

/-- C3: every step of the graph other than check_ticket_exists, when some
declared required input is absent, performs no external effect (its effect
list is empty, so no backend or LLM call) and merges an update that leaves
the state exactly as it was; in particular update_ticket_status with absent
ticket data is a pure pass-through regardless of the approval decision. -/
theorem claim_C3_guard_noop :
    ∀ (env : Env) (st : Step) (s : GraphState), st ≠ Step.check_ticket_exists →
      readsMissing st s →
      ∃ u, runStep env st s = .ok (u, []) ∧ mergeState s u = s :=
  fun env st s h1 h2 => guard_passthrough env st s h1 h2

/-- C3 witness: update_ticket_status at a state with an approval decision
but no ticket id and no ticket data. -/
theorem claim_C3_witness :
    (Step.update_ticket_status ≠ Step.check_ticket_exists) ∧
    readsMissing Step.update_ticket_status sGuard ∧
    ∃ u, runStep envT Step.update_ticket_status sGuard = .ok (u, []) ∧
      mergeState sGuard u = sGuard :=
  ⟨by decide, Or.inl rfl,
    claim_C3_guard_noop envT Step.update_ticket_status sGuard (by decide) (Or.inl rfl)⟩

/-- C6 counterexample: the claim states one check_total over amounts and a
total, returning true iff the absolute difference is at most 0.01, with
non-numeric amounts skipped.  The variant that skips non-numeric amounts
(main.py) compares strictly: at amounts [0.01] and total 0.0 the difference
is exactly the 0.01 tolerance, the claim demands true, the code returns
false. -/
theorem claim_C6_counterexample :
    main_check_total [some (JsonNum.num (1/100))] (some (JsonNum.num 0)) = false ∧
    |skippedSum [some (JsonNum.num (1/100))] - totalValue (some (JsonNum.num 0))| ≤ 1/100 := by
  constructor
  · simp only [main_check_total, skippedSum, totalValue, List.foldl,
      decide_eq_false_iff_not]
    rw [show ((0 : ℚ) + 1/100 - 0) = 1/100 by norm_num, abs_of_nonneg (by norm_num)]
    norm_num
  · simp only [skippedSum, totalValue, List.foldl]
    rw [show ((0 : ℚ) + 1/100 - 0) = 1/100 by norm_num, abs_of_nonneg (by norm_num)]

/-- C6 amended: checks.py check_total (used by the graph, all amounts typed
numeric) returns true iff the absolute difference between the amount sum and
the summary total is at most 0.01; main.py check_total skips amounts on
which float() raises and missing totals fall back to 0, and returns true iff
the difference is strictly below 0.01.  The spec examples hold for both. -/
theorem claim_C6_check_total :
    (∀ (inv : InvoicesExtraction) (su : SummaryExtraction),
      check_total inv su = true ↔
        |(inv.invoices.map (fun i => i.amount)).sum - su.total| ≤ 1/100) ∧
    (∀ (amts : List (Option JsonNum)) (t : Option JsonNum),
      main_check_total amts t = true ↔ |skippedSum amts - totalValue t| < 1/100) ∧
    check_total { invoices := [{ amount := 42.5, date := none }, { amount := 18.2, date := none },
        { amount := 420, date := none }, { amount := 67, date := none }] }
      { total := 547.7, allowance := 0, transportation_total := 0,
        accommodation_total := 0, time_period_summary := none } = true ∧
    check_total { invoices := [{ amount := 42.5, date := none }, { amount := 18.2, date := none },
        { amount := 420, date := none }, { amount := 67, date := none }] }
      { total := 548, allowance := 0, transportation_total := 0,
        accommodation_total := 0, time_period_summary := none } = false ∧
    main_check_total [some (JsonNum.num 42.5), some (JsonNum.num 18.2),
        some (JsonNum.num 420), some (JsonNum.num 67)] (some (JsonNum.num 547.7)) = true ∧
    main_check_total [some (JsonNum.num 42.5), some (JsonNum.num 18.2),
        some (JsonNum.num 420), some (JsonNum.num 67)] (some (JsonNum.num 548)) = false := by
  refine ⟨?_, ?_, ?_, ?_, ?_, ?_⟩
  · intro inv su
    simp [check_total, decide_eq_true_eq]
  · intro amts t
    simp [main_check_total, decide_eq_true_eq]
  · norm_num [check_total]
  · simp only [check_total, List.map, List.sum_cons, List.sum_nil,
      decide_eq_false_iff_not]
    rw [show (42.5 : ℚ) + (18.2 + (420 + (67 + 0))) - 548 = -(3/10) by norm_num]
    rw [abs_neg, abs_of_nonneg (by norm_num)]
    norm_num
  · simp only [main_check_total, skippedSum, totalValue, List.foldl]
    norm_num
  · simp only [main_check_total, skippedSum, totalValue, List.foldl,
      decide_eq_false_iff_not]
    rw [show (0 : ℚ) + 42.5 + 18.2 + 420 + 67 - 548 = -(3/10) by norm_num]
    rw [abs_neg, abs_of_nonneg (by norm_num)]
    norm_num

/-- C7: with all four inputs present, the approval step writes a decision
whose approve flag is the conjunction of total_ok, ticket_exists,
allowance_calculation.matches_summary and date_comparsion.periods_match -
true only when all four hold, false as soon as any is false - with the
rationale comment naming the failed checks (decision modelled from the
prompt rules, see build_approval_decision_with_llm). -/
theorem claim_C7_approval_and :
    ∀ (env : Env) (s : GraphState) (t e : Bool) (ac : AllowanceCalculation)
      (dc : DateComparsion),
      s.total_ok = some t → s.ticket_exists = some e →
      s.allowance_calculation = some ac → s.date_comparsion = some dc →
      runStep env Step.approval_decision s =
        .ok ({ approval_decision :=
                 some (build_approval_decision_with_llm t e ac dc.periods_match) },
             [Effect.llmCall "approval_decision"]) ∧
      (build_approval_decision_with_llm t e ac dc.periods_match).approve =
        (t && e && ac.matches_summary && dc.periods_match) ∧
      ((build_approval_decision_with_llm t e ac dc.periods_match).approve = true ↔
        t = true ∧ e = true ∧ ac.matches_summary = true ∧ dc.periods_match = true) ∧
      (¬ (t = true ∧ e = true ∧ ac.matches_summary = true ∧ dc.periods_match = true) →
        (build_approval_decision_with_llm t e ac dc.periods_match).comment =
          "Rejected; failed checks: " ++ String.intercalate ", "
            (failedChecks t e ac.matches_summary dc.periods_match)) := by
  intro env s t e ac dc h1 h2 h3 h4
  refine ⟨?_, rfl, ?_, ?_⟩
  · simp [runStep, approval_decision_node, h1, h2, h3, h4]
  · simp [build_approval_decision_with_llm, Bool.and_eq_true, and_assoc]
  · intro hnot
    have hb : (t && e && ac.matches_summary && dc.periods_match) = false := by
      rcases t <;> rcases e <;> rcases hm : ac.matches_summary <;>
        rcases hp : dc.periods_match <;> simp_all
    simp [build_approval_decision_with_llm, hb]

/-- C7 witness: the fully populated state with every check passing. -/
theorem claim_C7_witness :
    sFull.total_ok = some true ∧ sFull.ticket_exists = some true ∧
    sFull.allowance_calculation =
      some { days := 4, expected_allowance := 200, matches_summary := true } ∧
    sFull.date_comparsion = some { periods_match := true, trip_days := some 4 } ∧
    (runStep envT Step.approval_decision sFull =
        .ok ({ approval_decision :=
                 some (build_approval_decision_with_llm true true
                   { days := 4, expected_allowance := 200, matches_summary := true } true) },
             [Effect.llmCall "approval_decision"]) ∧
      (build_approval_decision_with_llm true true
          { days := 4, expected_allowance := 200, matches_summary := true } true).approve =
        (true && true && true && true) ∧
      ((build_approval_decision_with_llm true true
          { days := 4, expected_allowance := 200, matches_summary := true } true).approve = true ↔
        true = true ∧ true = true ∧ true = true ∧ true = true) ∧
      (¬ (true = true ∧ true = true ∧ true = true ∧ true = true) →
        (build_approval_decision_with_llm true true
            { days := 4, expected_allowance := 200, matches_summary := true } true).comment =
          "Rejected; failed checks: " ++ String.intercalate ", "
            (failedChecks true true true true))) :=
  ⟨rfl, rfl, rfl, rfl,
    claim_C7_approval_and envT sFull true true
      { days := 4, expected_allowance := 200, matches_summary := true }
      { periods_match := true, trip_days := some 4 } rfl rfl rfl rfl⟩

/-- C8: whenever header_extraction.ticket_id is absent or empty, the
check_ticket_exists step writes exactly ticket_exists false and ticket_data
none, with an empty effect list (no backend call). -/
theorem claim_C8_ticket_short_circuit :
    ∀ (env : Env) (s : GraphState), (tidOf s = none ∨ tidOf s = some "") →
      runStep env Step.check_ticket_exists s =
        .ok ({ ticket_exists := some false, ticket_data := some none }, []) := by
  intro env s h
  rcases h with h | h <;> simp [runStep, check_ticket_exists_node, h]

/-- C8 witness: a state whose extracted ticket id is the empty string. -/
theorem claim_C8_witness :
    (tidOf sEmptyTid = none ∨ tidOf sEmptyTid = some "") ∧
    runStep envT Step.check_ticket_exists sEmptyTid =
      .ok ({ ticket_exists := some false, ticket_data := some none }, []) :=
  ⟨Or.inr rfl, claim_C8_ticket_short_circuit envT sEmptyTid (Or.inr rfl)⟩

/-- C9: the declared write-sets of distinct steps are pairwise disjoint, and
along every run of the graph (each step at most once, in any order
compatible with the scheduler) the shared state grows monotonically: every
field present at an earlier point of the run is still present, with the same
value, at every later point; fields are never removed and never overwritten
by a different step with a different value. -/
theorem claim_C9_monotone_state :
    (∀ st1 st2 : Step, st1 ≠ st2 →
      ∀ f ∈ declaredWrites st1, f ∉ declaredWrites st2) ∧
    (∀ (env : Env) (l1 l2 : List Step) (p : String), (l1 ++ l2).Nodup →
      statePreserved (execRun env l1 (initState p))
        (execRun env (l1 ++ l2) (initState p))) := by
  constructor
  · decide
  · intro env l1 l2 p h
    exact run_prefix_preserves env l1 l2 (initState p) [] (stateInv_init p) h
      (by intro st _ hst; cases hst)

/-- C9 witness: the prefix of the canonical schedule against its extension
by the remaining steps. -/
theorem claim_C9_witness :
    ([Step.extract_pdf, Step.get_allowances] ++
      [Step.extract_data, Step.check_ticket_exists, Step.check_total,
       Step.select_daily_rate, Step.compare_dates, Step.allowance_check,
       Step.approval_decision, Step.update_ticket_status]).Nodup ∧
    statePreserved
      (execRun envT [Step.extract_pdf, Step.get_allowances] (initState "report.pdf"))
      (execRun envT
        ([Step.extract_pdf, Step.get_allowances] ++
          [Step.extract_data, Step.check_ticket_exists, Step.check_total,
           Step.select_daily_rate, Step.compare_dates, Step.allowance_check,
           Step.approval_decision, Step.update_ticket_status]) (initState "report.pdf")) :=
  ⟨by decide,
    claim_C9_monotone_state.2 envT
      [Step.extract_pdf, Step.get_allowances]
      [Step.extract_data, Step.check_ticket_exists, Step.check_total,
       Step.select_daily_rate, Step.compare_dates, Step.allowance_check,
       Step.approval_decision, Step.update_ticket_status] "report.pdf" (by decide)⟩

/-- C10: _extract_dates returns both bounds or neither; when both are
returned the start is no later than the end (reversed ranges are swapped);
consequently every present trip_days of compare_time_periods_with_llm is at
least 1. -/
theorem claim_C10_extract_invariants :
    (∀ p, ((extract_dates p).1 = none ∧ (extract_dates p).2 = none) ∨
      ∃ a b, extract_dates p = (some a, some b)) ∧
    (∀ p a b, extract_dates p = (some a, some b) → dateLe a b) ∧
    (∀ h s n, (compare_time_periods_with_llm h s).trip_days = some n → 1 ≤ n) := by
  refine ⟨?_, ?_, ?_⟩
  · intro p
    rcases extract_shape p with h | ⟨a, b, h, _, _, _⟩
    · left; rw [h]; exact ⟨rfl, rfl⟩
    · right; exact ⟨a, b, h⟩
  · intro p a b h
    obtain ⟨hva, hvb, hnl⟩ := extract_fields h
    rcases dateLt_trichotomy a b with hlt | heq | hgt
    · exact Or.inr hlt
    · exact Or.inl heq
    · exact absurd hgt hnl
  · intro h s n htd
    rw [compare_eq_specForm h s] at htd
    simp only at htd
    unfold tripDaysSpec at htd
    rcases extract_shape h with hh | ⟨a, b, hh, _, _, _⟩ <;>
      rcases extract_shape s with hs | ⟨c, d, hs, _, _, _⟩
    · simp [hh, hs, length_in_days] at htd
    · have hpos := extract_days_pos hs
      simp [hh, hs, length_in_days] at htd
      omega
    · have hpos := extract_days_pos hh
      simp [hh, hs, length_in_days] at htd
      omega
    · have hpos1 := extract_days_pos hh
      have hpos2 := extract_days_pos hs
      simp [hh, hs, length_in_days] at htd
      split_ifs at htd <;> simp only [Option.some.injEq] at htd <;> omega

/-- C10 witness: the spec example, whose trip_days is 6. -/
theorem claim_C10_witness :
    (compare_time_periods_with_llm (some "2024-05-02 – 2024-05-05")
      (some "2024-05-02 – 2024-05-07")).trip_days = some 6 ∧ (1 : Int) ≤ 6 :=
  ⟨by decide,
    claim_C10_extract_invariants.2.2 (some "2024-05-02 – 2024-05-05")
      (some "2024-05-02 – 2024-05-07") 6 (by decide)⟩
